import Mathlib

/-!
Verification development for the BlackSwan oracle service
(`src/index.js`, two service variants) and the `BlackSwanOracle`
contract (`contracts/IBlackSwanOracle.sol`).

The JavaScript source contains two near-identical service classes:

* the *analysis* variant (with IPFS publishing, `index.js` lines 58-904):
  embedded below under the `AnalysisService` prefix;
* the *score-only* variant (no IPFS, `index.js` lines 1005-1549):
  embedded below under the `ScoreService` prefix.

External effects (the upstream HTTP API, the Pinata IPFS uploads and the
transaction outcome reported by ethers) are passed in as explicit
parameters, so each cycle is a pure function from the service state and
the environment to the new state plus the list of oracle-contract calls
it submits.
-/

/-- A JavaScript value found in an upstream JSON field, as far as the
validation in `fetchScoresFromAPI` distinguishes values: a finite number
(JS floats are rationals), `NaN`, or some non-number value. -/
inductive JsVal where
  | num (q : ℚ)
  | nan
  | other
  deriving DecidableEq, Repr

/-- The upstream `/stats` response consumed by `fetchScoresFromAPI`;
`none` models an absent (`undefined`) field. -/
structure ApiResponse where
  blackswanScore : Option JsVal
  marketPeakScore : Option JsVal
  deriving DecidableEq, Repr

/-- The score validation of `fetchScoresFromAPI` (index.js 1266-1286):
reject non-numbers, `NaN` and negatives, then `Math.floor`. Returns
`none` when the code would `throw`. -/
def validateScore (v : JsVal) : Option ℤ :=
  match v with
  | .num q => if q < 0 then none else some q.floor
  | .nan => none
  | .other => none

/-- `fetchScoresFromAPI` of the score-only variant (index.js 1244-1306).
The parameter `net` is the outcome of the `axios.get` call itself
(`.error` = network error / timeout / HTTP error, all of which throw).
The function rethrows every error, modelled as `Except.error`. -/
def fetchScoresFromAPI (net : Except String ApiResponse) :
    Except String (ℤ × ℤ) :=
  match net with
  | .error e => .error e
  | .ok r =>
    match r.blackswanScore, r.marketPeakScore with
    | some bs, some mp =>
      match validateScore bs with
      | none => .error "Invalid blackswan score received"
      | some b =>
        match validateScore mp with
        | none => .error "Invalid market peak score received"
        | some m => .ok (b, m)
    | _, _ => .error "Unable to extract both scores from API response"

/-- One submitted oracle-contract call, named after the contract method
the service invokes through ethers. -/
inductive OracleCall where
  | updateBothScores (bs mp : ℤ)
  | updateBlackSwanScore (bs : ℤ)
  | updateMarketPeakScore (mp : ℤ)
  | updateScoresAndAnalysis (bs mp : ℤ) (bsIPFS mpIPFS : String)
  deriving DecidableEq, Repr

/-- Outcome of one submitted transaction, as observed by the service:
`receipt.status === 1`, `receipt.status !== 1`, or a throw anywhere in
submission / `tx.wait()` (insufficient funds, nonce error, revert with
reason, ...), which the service catches. -/
inductive TxOutcome where
  | confirmedSuccess
  | confirmedFailure
  | thrown (msg : String)
  deriving DecidableEq, Repr

/-- `true` exactly when `receipt.status === 1` is reached. -/
def txSucceeded (o : TxOutcome) : Bool :=
  match o with
  | .confirmedSuccess => true
  | .confirmedFailure => false
  | .thrown _ => false

/-- The `this.serviceStatus` object (index.js 1015-1025). Timestamps are
modelled only as "has been set" flags; `lastError` keeps the message. -/
structure ServiceStatus where
  status : String
  lastUpdateSet : Bool
  lastSuccessfulUpdateSet : Bool
  updateCount : ℕ
  errorCount : ℕ
  lastError : Option String
  isHealthy : Bool
  deriving DecidableEq, Repr

/-- `serviceStatus` right after the constructor ran (index.js 1015-1025). -/
def initialServiceStatus : ServiceStatus :=
  { status := "starting"
    lastUpdateSet := false
    lastSuccessfulUpdateSet := false
    updateCount := 0
    errorCount := 0
    lastError := none
    isHealthy := false }

/-- The `catch` block shared by both variants' `checkAndUpdateScores`
(index.js 1468-1476 and 823-831). -/
def cycleCatchBlock (msg : String) (st : ServiceStatus) : ServiceStatus :=
  { st with
    errorCount := st.errorCount + 1
    lastError := some msg
    isHealthy := false }

/-- `updateOracleScores` (identical in both variants, index.js 1308-1395
and 531-618). Dispatches on `updateType`; for any unrecognised type `tx`
stays `undefined`, `tx.wait()` throws, and the surrounding `catch`
returns `false` with no contract call made. Returns the boolean result
together with the submitted call. -/
def updateOracleScores (outcome : TxOutcome) (newBlackswanScore newMarketPeakScore : ℤ)
    (updateType : String) : Bool × List OracleCall :=
  if updateType = "both" then
    (txSucceeded outcome, [.updateBothScores newBlackswanScore newMarketPeakScore])
  else if updateType = "blackswan" then
    (txSucceeded outcome, [.updateBlackSwanScore newBlackswanScore])
  else if updateType = "marketpeak" then
    (txSucceeded outcome, [.updateMarketPeakScore newMarketPeakScore])
  else
    (false, [])

/-- Mutable fields of the score-only service (index.js 1005-1027). -/
structure ScoreService.State where
  lastKnownBlackSwanScore : Option ℤ
  lastKnownMarketPeakScore : Option ℤ
  isRunning : Bool
  serviceStatus : ServiceStatus
  deriving DecidableEq, Repr

/-- Service state right after the constructor (index.js 1006-1027). -/
def ScoreService.initialState : ScoreService.State :=
  { lastKnownBlackSwanScore := none
    lastKnownMarketPeakScore := none
    isRunning := false
    serviceStatus := initialServiceStatus }

/-- What a cycle of the score-only variant decides to do after the fetch
and the diff against the cache (the synchronous part of
`checkAndUpdateScores`, index.js 1397-1446). -/
inductive ScoreService.Decision where
  | fetchFailed (msg : String)
  | firstRun (bs mp : ℤ)
  | noChange
  | doUpdate (bs mp : ℤ) (updateType : String)
  deriving DecidableEq, Repr

/-- The fetch + diff + update-type selection of the score-only
`checkAndUpdateScores` (index.js 1402-1445), reading the cache of `s`. -/
def ScoreService.cycleDecision (net : Except String ApiResponse)
    (s : ScoreService.State) : ScoreService.Decision :=
  match fetchScoresFromAPI net with
  | .error msg => .fetchFailed msg
  | .ok (blackswanScore, marketPeakScore) =>
    match s.lastKnownBlackSwanScore, s.lastKnownMarketPeakScore with
    | none, _ => .firstRun blackswanScore marketPeakScore
    | _, none => .firstRun blackswanScore marketPeakScore
    | some cbs, some cmp =>
      let blackswanChanged : Bool := decide (blackswanScore ≠ cbs)
      let marketPeakChanged : Bool := decide (marketPeakScore ≠ cmp)
      if !blackswanChanged && !marketPeakChanged then
        .noChange
      else if blackswanChanged && marketPeakChanged then
        .doUpdate blackswanScore marketPeakScore "both"
      else if blackswanChanged then
        .doUpdate blackswanScore marketPeakScore "blackswan"
      else
        .doUpdate blackswanScore marketPeakScore "marketpeak"

/-- The state mutations the score-only `checkAndUpdateScores` performs
for a given decision (index.js 1405-1476): first run caches the fetched
scores with no contract interaction; on a performed update, the cache
and counters move only when `updateOracleScores` returned `true`, and a
`false` result bumps `errorCount` and clears `isHealthy` (leaving
`lastError` alone); a thrown fetch error lands in the `catch` block. -/
def ScoreService.applyDecision (d : ScoreService.Decision) (outcome : TxOutcome)
    (s : ScoreService.State) : ScoreService.State × List OracleCall :=
  match d with
  | .fetchFailed msg =>
    ({ s with serviceStatus := cycleCatchBlock msg s.serviceStatus }, [])
  | .firstRun bs mp =>
    ({ s with
        lastKnownBlackSwanScore := some bs
        lastKnownMarketPeakScore := some mp }, [])
  | .noChange => (s, [])
  | .doUpdate bs mp updateType =>
    let r := updateOracleScores outcome bs mp updateType
    if r.1 then
      ({ s with
          lastKnownBlackSwanScore := some bs
          lastKnownMarketPeakScore := some mp
          serviceStatus := { s.serviceStatus with
            lastSuccessfulUpdateSet := true
            updateCount := s.serviceStatus.updateCount + 1
            isHealthy := true } }, r.2)
    else
      ({ s with serviceStatus := { s.serviceStatus with
          errorCount := s.serviceStatus.errorCount + 1
          isHealthy := false } }, r.2)

/-- Records `this.serviceStatus.lastUpdate = new Date()` (index.js 1400). -/
def recordAttempt (st : ServiceStatus) : ServiceStatus :=
  { st with lastUpdateSet := true }

/-- `checkAndUpdateScores` of the score-only variant (index.js
1397-1477) as one pure step: record the attempt, fetch, diff, update,
reconcile. Returns the new state and the submitted contract calls. -/
def ScoreService.checkAndUpdateScores (net : Except String ApiResponse)
    (outcome : TxOutcome) (s : ScoreService.State) :
    ScoreService.State × List OracleCall :=
  let s0 : ScoreService.State :=
    { s with serviceStatus := recordAttempt s.serviceStatus }
  ScoreService.applyDecision (ScoreService.cycleDecision net s0) outcome s0

/-- The part of `start()` that runs before the initial
`checkAndUpdateScores` call (index.js 1479-1505): the `isRunning` guard,
then `status = "running"` and `isHealthy = true`. -/
def ScoreService.startPhase1 (s : ScoreService.State) : ScoreService.State :=
  if s.isRunning then s
  else
    { s with
      isRunning := true
      serviceStatus := { s.serviceStatus with
        status := "running"
        isHealthy := true } }

/-- `start()` of the score-only variant (index.js 1479-1518): the
pre-cycle mutations of `startPhase1` followed by the initial
`checkAndUpdateScores`. (The `setInterval` registration is modelled by
the concurrency machine below.) -/
def ScoreService.start (net : Except String ApiResponse) (outcome : TxOutcome)
    (s : ScoreService.State) : ScoreService.State × List OracleCall :=
  if s.isRunning then (s, [])
  else ScoreService.checkAndUpdateScores net outcome (ScoreService.startPhase1 s)

/-- Response sent by an HTTP handler: status code plus the `success`
field of the JSON body. -/
structure HttpUpdateResponse where
  httpStatus : ℕ
  success : Bool
  deriving DecidableEq, Repr

/-- The `POST /update` handler (index.js 1141-1158): awaits one
`checkAndUpdateScores` call. Because that function catches every error
internally and never rethrows, the `await` always resolves and the
handler replies `200 {success: true}`; the `catch`/500 branch of the
handler is unreachable. -/
def ScoreService.postUpdate (net : Except String ApiResponse) (outcome : TxOutcome)
    (s : ScoreService.State) :
    ScoreService.State × List OracleCall × HttpUpdateResponse :=
  let r := ScoreService.checkAndUpdateScores net outcome s
  (r.1, r.2, { httpStatus := 200, success := true })

/-- The `GET /health` handler (index.js 1077-1101): HTTP 200 when
`serviceStatus.isHealthy`, else 503, echoing `status` and `healthy`. -/
def healthEndpoint (st : ServiceStatus) : ℕ × Bool × String :=
  (if st.isHealthy then 200 else 503, st.isHealthy, st.status)

/-- One analysis object of the `/analysis` response (the variant's
`fetchAnalysisFromAPI` only ever reads `.score`, which `Math.floor`
consumes unvalidated; the free-form metadata fields only flow into the
pinned JSON document and are not modelled). -/
structure Analysis where
  score : ℚ
  deriving DecidableEq, Repr

/-- The upstream `/analysis` response consumed by the analysis variant;
`none` models an absent / falsy field. -/
structure AnalysisResponse where
  blackswan : Option Analysis
  marketPeak : Option Analysis
  deriving DecidableEq, Repr

/-- `fetchAnalysisFromAPI` (index.js 489-529): throws when either of the
two analysis objects is missing; performs no score validation. -/
def AnalysisService.fetchAnalysisFromAPI (net : Except String AnalysisResponse) :
    Except String (Analysis × Analysis) :=
  match net with
  | .error e => .error e
  | .ok r =>
    match r.blackswan, r.marketPeak with
    | some b, some m => .ok (b, m)
    | _, _ => .error "Unable to extract analysis data from API response"

/-- `updateOracleScoresAndAnalysis` (index.js 620-710): always submits
the single combined `updateScoresAndAnalysis` contract call; returns
`true` exactly when the receipt reports success, `false` on a failed
receipt or any caught throw. -/
def updateOracleScoresAndAnalysis (outcome : TxOutcome) (newBlackswanScore newMarketPeakScore : ℤ)
    (blackSwanIPFS marketPeakIPFS : String) : Bool × List OracleCall :=
  (txSucceeded outcome,
   [.updateScoresAndAnalysis newBlackswanScore newMarketPeakScore blackSwanIPFS marketPeakIPFS])

/-- Mutable fields of the analysis (IPFS) service variant (index.js 58-83). -/
structure AnalysisService.State where
  lastKnownBlackSwanScore : Option ℤ
  lastKnownMarketPeakScore : Option ℤ
  lastKnownBlackSwanIPFS : Option String
  lastKnownMarketPeakIPFS : Option String
  isRunning : Bool
  serviceStatus : ServiceStatus
  deriving DecidableEq, Repr

/-- Analysis-variant state right after the constructor (index.js 59-83). -/
def AnalysisService.initialState : AnalysisService.State :=
  { lastKnownBlackSwanScore := none
    lastKnownMarketPeakScore := none
    lastKnownBlackSwanIPFS := none
    lastKnownMarketPeakIPFS := none
    isRunning := false
    serviceStatus := initialServiceStatus }

/-- `checkAndUpdateScores` of the analysis variant (index.js 712-832).
`ipfs` is the outcome of the two `uploadJSONToIPFS` calls, collapsed to
one `Except` carrying both `ipfs://` URIs (an upload throw propagates to
the outer `catch`). First run: upload, combined write, and on success
seed the whole cache — on a `false` result the first-run branch returns
with no status mutation at all. Steady state: any change triggers the
combined `updateScoresAndAnalysis` write; on success the cache and
counters move, on failure only `errorCount`/`isHealthy` move. -/
def AnalysisService.checkAndUpdateScores (net : Except String AnalysisResponse)
    (ipfs : Except String (String × String)) (outcome : TxOutcome)
    (s : AnalysisService.State) : AnalysisService.State × List OracleCall :=
  let s0 : AnalysisService.State :=
    { s with serviceStatus := recordAttempt s.serviceStatus }
  match AnalysisService.fetchAnalysisFromAPI net with
  | .error msg => ({ s0 with serviceStatus := cycleCatchBlock msg s0.serviceStatus }, [])
  | .ok (blackswan, marketPeak) =>
    let blackswanScore := blackswan.score.floor
    let marketPeakScore := marketPeak.score.floor
    match s0.lastKnownBlackSwanScore, s0.lastKnownMarketPeakScore with
    | none, _ | _, none =>
      match ipfs with
      | .error msg => ({ s0 with serviceStatus := cycleCatchBlock msg s0.serviceStatus }, [])
      | .ok (blackSwanIPFS, marketPeakIPFS) =>
        let r := updateOracleScoresAndAnalysis outcome blackswanScore marketPeakScore
          blackSwanIPFS marketPeakIPFS
        if r.1 then
          ({ s0 with
              lastKnownBlackSwanScore := some blackswanScore
              lastKnownMarketPeakScore := some marketPeakScore
              lastKnownBlackSwanIPFS := some blackSwanIPFS
              lastKnownMarketPeakIPFS := some marketPeakIPFS
              serviceStatus := { s0.serviceStatus with
                lastSuccessfulUpdateSet := true
                updateCount := s0.serviceStatus.updateCount + 1
                isHealthy := true } }, r.2)
        else
          (s0, r.2)
    | some cbs, some cmp =>
      let blackswanChanged : Bool := decide (blackswanScore ≠ cbs)
      let marketPeakChanged : Bool := decide (marketPeakScore ≠ cmp)
      if !blackswanChanged && !marketPeakChanged then
        (s0, [])
      else
        match ipfs with
        | .error msg => ({ s0 with serviceStatus := cycleCatchBlock msg s0.serviceStatus }, [])
        | .ok (blackSwanIPFS, marketPeakIPFS) =>
          let r := updateOracleScoresAndAnalysis outcome blackswanScore marketPeakScore
            blackSwanIPFS marketPeakIPFS
          if r.1 then
            ({ s0 with
                lastKnownBlackSwanScore := some blackswanScore
                lastKnownMarketPeakScore := some marketPeakScore
                lastKnownBlackSwanIPFS := some blackSwanIPFS
                lastKnownMarketPeakIPFS := some marketPeakIPFS
                serviceStatus := { s0.serviceStatus with
                  lastSuccessfulUpdateSet := true
                  updateCount := s0.serviceStatus.updateCount + 1
                  isHealthy := true } }, r.2)
          else
            ({ s0 with serviceStatus := { s0.serviceStatus with
                errorCount := s0.serviceStatus.errorCount + 1
                isHealthy := false } }, r.2)

/-- An EVM address, with `0` standing for `address(0)`. -/
abbrev Addr := ℕ

/-- Storage of the `BlackSwanOracle` contract
(`IBlackSwanOracle.sol` lines 207-229 of the implementation part):
scores are `uint256` (only ever stored, never computed on, so ℕ),
`devWallets` is the `mapping(address => bool)` with default `false`,
`devWalletList` the enumeration array. -/
structure BlackSwanOracle.State where
  owner : Addr
  pausedFlag : Bool
  blackSwanScore : ℕ
  marketPeakScore : ℕ
  blackSwanAnalysisIPFS : String
  marketPeakAnalysisIPFS : String
  devWallets : Addr → Bool
  devWalletList : List Addr

/-- The removal loop of `removeDevWallet` (IBlackSwanOracle.sol
326-332): scan for the first index holding `wallet`; copy the last
element into that slot, `pop()` the last element, and `break`. When
`wallet` does not occur, the loop leaves the array unchanged. -/
def swapRemoveFirst (wallet : Addr) (l : List Addr) : List Addr :=
  if l.indexOf wallet < l.length then
    (l.set (l.indexOf wallet) (l.getD (l.length - 1) 0)).dropLast
  else l

/-- `addDevWallet` (IBlackSwanOracle.sol 306-316): `onlyOwner`, rejects
the zero address and already-added wallets, then sets the mapping and
pushes onto the list. `Except.error` models a revert. -/
def BlackSwanOracle.addDevWallet (sender wallet : Addr) (s : BlackSwanOracle.State) :
    Except String BlackSwanOracle.State :=
  if sender ≠ s.owner then
    .error "OwnableUnauthorizedAccount"
  else if wallet = 0 then
    .error "BlackSwanOracle: wallet cannot be zero address"
  else if s.devWallets wallet then
    .error "BlackSwanOracle: wallet already added"
  else
    .ok { s with
      devWallets := fun a => if a = wallet then true else s.devWallets a
      devWalletList := s.devWalletList ++ [wallet] }

/-- `removeDevWallet` (IBlackSwanOracle.sol 320-335): `onlyOwner`,
requires the wallet to be present in the mapping, clears the mapping
entry and swap-removes the first list occurrence. -/
def BlackSwanOracle.removeDevWallet (sender wallet : Addr) (s : BlackSwanOracle.State) :
    Except String BlackSwanOracle.State :=
  if sender ≠ s.owner then
    .error "OwnableUnauthorizedAccount"
  else if s.devWallets wallet = false then
    .error "BlackSwanOracle: wallet not found"
  else
    .ok { s with
      devWallets := fun a => if a = wallet then false else s.devWallets a
      devWalletList := swapRemoveFirst wallet s.devWalletList }

/-- The allow-list synchronisation invariant of the spec: an address
maps to `true` exactly when it occurs in the enumeration list, and the
list holds no duplicates. -/
def DevWalletsInv (s : BlackSwanOracle.State) : Prop :=
  (∀ a : Addr, s.devWallets a = true ↔ a ∈ s.devWalletList) ∧ s.devWalletList.Nodup

/-- Progress of one in-flight invocation of the score-only
`checkAndUpdateScores`, at the granularity of its `await` points:
not started; entered (attempt recorded, fetch pending); transaction
submitted and `tx.wait()` pending (carrying the decision the invocation
computed); finished. -/
inductive InvPhase where
  | idle
  | entered
  | submitted (d : ScoreService.Decision)
  | finished
  deriving DecidableEq, Repr

/-- Whether an invocation currently has a submitted, unconfirmed
transaction. -/
def InvPhase.isSubmitted : InvPhase → Bool
  | .submitted _ => true
  | _ => false

/-- Whether a decision leads to an `updateOracleScores` submission. -/
def ScoreService.Decision.isUpdate : ScoreService.Decision → Bool
  | .doUpdate _ _ _ => true
  | _ => false

/-- Shared service state plus two potentially overlapping invocations of
`checkAndUpdateScores`: one driven by the `setInterval` timer
(index.js 1511-1515) and one by the `POST /update` handler
(index.js 1141-1158). -/
structure ConcState where
  svc : ScoreService.State
  timer : InvPhase
  http : InvPhase
  deriving DecidableEq, Repr

/-- Interleaved small-step semantics of the two invocation paths,
mirroring the JavaScript event loop: each step is one synchronous block
between `await` points. The timer path is gated only by `isRunning`
(index.js 1512) and the HTTP path is not gated at all (index.js 1144);
neither path consults any in-flight marker, and `checkAndUpdateScores`
never writes `isRunning`. `net` is the fetch outcome both invocations
observe; `oT`/`oH` the transaction outcomes of the timer/HTTP
invocation. -/
inductive ConcStep (net : Except String ApiResponse) (oT oH : TxOutcome) :
    ConcState → ConcState → Prop where
  | timerEnter (c : ConcState) (h1 : c.timer = .idle) (h2 : c.svc.isRunning = true) :
      ConcStep net oT oH c
        { c with
          timer := .entered
          svc := { c.svc with serviceStatus := recordAttempt c.svc.serviceStatus } }
  | httpEnter (c : ConcState) (h1 : c.http = .idle) :
      ConcStep net oT oH c
        { c with
          http := .entered
          svc := { c.svc with serviceStatus := recordAttempt c.svc.serviceStatus } }
  | timerSubmit (c : ConcState) (bs mp : ℤ) (t : String) (h1 : c.timer = .entered)
      (h2 : ScoreService.cycleDecision net c.svc = .doUpdate bs mp t) :
      ConcStep net oT oH c { c with timer := .submitted (.doUpdate bs mp t) }
  | httpSubmit (c : ConcState) (bs mp : ℤ) (t : String) (h1 : c.http = .entered)
      (h2 : ScoreService.cycleDecision net c.svc = .doUpdate bs mp t) :
      ConcStep net oT oH c { c with http := .submitted (.doUpdate bs mp t) }
  | timerLocal (c : ConcState) (d : ScoreService.Decision) (h1 : c.timer = .entered)
      (h2 : ScoreService.cycleDecision net c.svc = d) (h3 : d.isUpdate = false) :
      ConcStep net oT oH c
        { c with timer := .finished, svc := (ScoreService.applyDecision d oT c.svc).1 }
  | httpLocal (c : ConcState) (d : ScoreService.Decision) (h1 : c.http = .entered)
      (h2 : ScoreService.cycleDecision net c.svc = d) (h3 : d.isUpdate = false) :
      ConcStep net oT oH c
        { c with http := .finished, svc := (ScoreService.applyDecision d oH c.svc).1 }
  | timerConfirm (c : ConcState) (d : ScoreService.Decision) (h1 : c.timer = .submitted d) :
      ConcStep net oT oH c
        { c with timer := .finished, svc := (ScoreService.applyDecision d oT c.svc).1 }
  | httpConfirm (c : ConcState) (d : ScoreService.Decision) (h1 : c.http = .submitted d) :
      ConcStep net oT oH c
        { c with http := .finished, svc := (ScoreService.applyDecision d oH c.svc).1 }

/-- Validity predicate for one upstream score field, mirroring the
rejects of `fetchScoresFromAPI`: absent, non-number, `NaN` or negative. -/
def badScoreField : Option JsVal → Bool
  | none => true
  | some (.num q) => decide (q < 0)
  | some .nan => true
  | some .other => true

/-- An upstream response `fetchScoresFromAPI` rejects: at least one of
the two score fields is missing, non-numeric, `NaN` or negative. -/
def malformedResponse (r : ApiResponse) : Bool :=
  badScoreField r.blackswanScore || badScoreField r.marketPeakScore

/-- The claim C6 scenario input: blackswan score -1, market peak 50. -/
def C6response : ApiResponse :=
  { blackswanScore := some (.num (-1)), marketPeakScore := some (.num 50) }

/-- A seeded steady-state service for concrete cycles. -/
def C6state : ScoreService.State :=
  { ScoreService.initialState with
    lastKnownBlackSwanScore := some 40
    lastKnownMarketPeakScore := some 60 }

/-- A seeded steady-state analysis-variant service for concrete cycles. -/
def C1analysisState : AnalysisService.State :=
  { AnalysisService.initialState with
    lastKnownBlackSwanScore := some 40
    lastKnownMarketPeakScore := some 60 }

/-- The fetch outcome (41, 75) used by concrete steady-state cycles. -/
def C2net : Except String ApiResponse :=
  .ok { blackswanScore := some (.num 41), marketPeakScore := some (.num 75) }

/-- The fetch outcomes used by concrete first-cycle runs. -/
def C3anet : Except String AnalysisResponse :=
  .ok { blackswan := some { score := 12 }, marketPeak := some { score := 34 } }

/-- Score-only fetch outcome for a concrete first cycle. -/
def C3net : Except String ApiResponse :=
  .ok { blackswanScore := some (.num 7), marketPeakScore := some (.num 9) }

/-- Initial concurrent state for the concrete two-invocation trace: a
running, seeded service, no invocation started. -/
def C4start : ConcState :=
  { svc := { C6state with isRunning := true }, timer := .idle, http := .idle }

/-- Final concurrent state of the concrete trace: both the timer
invocation and the HTTP invocation hold a submitted, unconfirmed
transaction at the same time. -/
def C4end : ConcState :=
  { svc := { C6state with
      isRunning := true
      serviceStatus := recordAttempt (recordAttempt C6state.serviceStatus) }
    timer := .submitted (.doUpdate 41 75 "both")
    http := .submitted (.doUpdate 41 75 "both") }

/-- A concrete allow-list state: owner 1, dev wallets 2, 3, 4. -/
def C8state : BlackSwanOracle.State :=
  { owner := 1
    pausedFlag := false
    blackSwanScore := 0
    marketPeakScore := 0
    blackSwanAnalysisIPFS := ""
    marketPeakAnalysisIPFS := ""
    devWallets := fun a => decide (a = 2 ∨ a = 3 ∨ a = 4)
    devWalletList := [2, 3, 4] }

/-- `C8state` after the owner removes wallet 3: the mapping entry is
cleared and the last element 4 is swapped into index 1 before the pop. -/
def C8state2 : BlackSwanOracle.State :=
  { C8state with
    devWallets := fun a => if a = 3 then false else C8state.devWallets a
    devWalletList := swapRemoveFirst 3 C8state.devWalletList }

theorem setLast_dropLast_perm {α : Type} (d : α) :
    ∀ (l : List α) (i : ℕ), i < l.length →
      List.Perm ((l.set i (l.getD (l.length - 1) d)).dropLast) (l.eraseIdx i)
  | [], _, h => by simp at h
  | [x], 0, _ => by simp
  | x :: y :: ys, 0, _ => by
    have hne : (y :: ys : List α) ≠ [] := by simp
    have hlen : ys.length < (y :: ys).length := by simp
    have hv : (x :: y :: ys).getD ((x :: y :: ys).length - 1) d
        = (y :: ys).getLast hne := by
      simp [List.getD_eq_getElem _ _ hlen, List.getLast_eq_getElem]
    have h1 : ((x :: y :: ys).set 0 ((y :: ys).getLast hne)).dropLast
        = (y :: ys).getLast hne :: (y :: ys).dropLast := by simp
    have h2 : (x :: y :: ys).eraseIdx 0
        = (y :: ys).dropLast ++ [(y :: ys).getLast hne] :=
      (List.dropLast_concat_getLast hne).symm
    rw [hv, h1, h2]
    exact (List.perm_append_singleton _ _).symm
  | x :: xs, i + 1, h => by
    have hxs : xs ≠ [] := by
      intro hnil
      subst hnil
      simp at h
    have hi : i < xs.length := by simpa using h
    have hlen : (x :: xs).length - 1 = (xs.length - 1) + 1 := by
      cases xs with
      | nil => exact absurd rfl hxs
      | cons a as => simp
    have hv : (x :: xs).getD ((x :: xs).length - 1) d = xs.getD (xs.length - 1) d := by
      rw [hlen, List.getD_cons_succ]
    have hne2 : xs.set i (xs.getD (xs.length - 1) d) ≠ [] := by
      intro hnil
      have hlen0 : xs.length = 0 := by
        have hcong := congrArg List.length hnil
        simpa using hcong
      omega
    rw [hv, List.set_cons_succ, List.dropLast_cons_of_ne_nil hne2,
      List.eraseIdx_cons_succ]
    exact List.Perm.cons x (setLast_dropLast_perm d xs i hi)

theorem swapRemoveFirst_spec {w : Addr} {l : List Addr} (hnd : l.Nodup) (hw : w ∈ l) :
    (∀ a, a ∈ swapRemoveFirst w l ↔ (a ∈ l ∧ a ≠ w)) ∧ (swapRemoveFirst w l).Nodup := by
  have hi : l.indexOf w < l.length := List.indexOf_lt_length.2 hw
  have hsw : swapRemoveFirst w l
      = (l.set (l.indexOf w) (l.getD (l.length - 1) 0)).dropLast := by
    simp [swapRemoveFirst, hi]
  have hperm := setLast_dropLast_perm 0 l (l.indexOf w) hi
  have hgetw : l[l.indexOf w] = w := List.getElem_indexOf hi
  have hdecomp : l.take (l.indexOf w) ++ w :: l.drop (l.indexOf w + 1) = l := by
    have h1 := List.getElem_cons_drop l (l.indexOf w) hi
    rw [hgetw] at h1
    rw [h1]
    exact List.take_append_drop _ l
  have hnd2 : (l.take (l.indexOf w) ++ w :: l.drop (l.indexOf w + 1)).Nodup := by
    rw [hdecomp]
    exact hnd
  obtain ⟨hnt, hncons, hdisj⟩ := List.nodup_append.1 hnd2
  have hwt : w ∉ l.take (l.indexOf w) := fun hmem => hdisj hmem (List.mem_cons_self w _)
  have hwd : w ∉ l.drop (l.indexOf w + 1) := (List.nodup_cons.1 hncons).1
  have hmem : ∀ a, a ∈ l.eraseIdx (l.indexOf w) ↔ (a ∈ l ∧ a ≠ w) := by
    intro a
    rw [List.eraseIdx_eq_take_drop_succ]
    constructor
    · intro hma
      rcases List.mem_append.1 hma with hta | hda
      · exact ⟨List.take_subset _ _ hta, fun he => hwt (he ▸ hta)⟩
      · exact ⟨List.drop_subset _ _ hda, fun he => hwd (he ▸ hda)⟩
    · rintro ⟨hal, hne⟩
      have hal2 : a ∈ l.take (l.indexOf w) ++ w :: l.drop (l.indexOf w + 1) := by
        rw [hdecomp]
        exact hal
      rcases List.mem_append.1 hal2 with hta | hca
      · exact List.mem_append.2 (Or.inl hta)
      · rcases List.mem_cons.1 hca with he | hda
        · exact absurd he hne
        · exact List.mem_append.2 (Or.inr hda)
  have hnde : (l.eraseIdx (l.indexOf w)).Nodup :=
    (List.eraseIdx_sublist l (l.indexOf w)).nodup hnd
  refine ⟨fun a => ?_, ?_⟩
  · rw [hsw, hperm.mem_iff, hmem a]
  · rw [hsw]
    exact hperm.nodup_iff.2 hnde

/-- The cycle decision only reads the cached scores and the fetch
result, so it is unaffected by `serviceStatus` bookkeeping. -/
theorem ScoreService.cycleDecision_status_irrelevant (net : Except String ApiResponse)
    (s : ScoreService.State) (st : ServiceStatus) :
    ScoreService.cycleDecision net { s with serviceStatus := st }
      = ScoreService.cycleDecision net s := rfl

theorem ScoreService.checkAndUpdateScores_eq (net : Except String ApiResponse)
    (oc : TxOutcome) (s : ScoreService.State) :
    ScoreService.checkAndUpdateScores net oc s
      = ScoreService.applyDecision (ScoreService.cycleDecision net s) oc
          { s with serviceStatus := recordAttempt s.serviceStatus } := rfl

theorem ScoreService.cycleDecision_fetchError (net : Except String ApiResponse)
    (s : ScoreService.State) (msg : String)
    (hf : fetchScoresFromAPI net = .error msg) :
    ScoreService.cycleDecision net s = .fetchFailed msg := by
  simp [ScoreService.cycleDecision, hf]

theorem ScoreService.cycleDecision_firstRun (net : Except String ApiResponse)
    (s : ScoreService.State) (bs mp : ℤ)
    (hf : fetchScoresFromAPI net = .ok (bs, mp))
    (hempty : s.lastKnownBlackSwanScore = none ∨ s.lastKnownMarketPeakScore = none) :
    ScoreService.cycleDecision net s = .firstRun bs mp := by
  rcases hempty with h | h
  · simp [ScoreService.cycleDecision, hf, h]
  · rcases hbs : s.lastKnownBlackSwanScore with _ | cbs
    · simp [ScoreService.cycleDecision, hf, hbs]
    · simp [ScoreService.cycleDecision, hf, hbs, h]

theorem ScoreService.cycleDecision_steady (net : Except String ApiResponse)
    (s : ScoreService.State) (cbs cmp bs mp : ℤ)
    (hc1 : s.lastKnownBlackSwanScore = some cbs)
    (hc2 : s.lastKnownMarketPeakScore = some cmp)
    (hf : fetchScoresFromAPI net = .ok (bs, mp)) :
    ScoreService.cycleDecision net s =
      if bs = cbs ∧ mp = cmp then .noChange
      else if bs ≠ cbs ∧ mp ≠ cmp then .doUpdate bs mp "both"
      else if bs ≠ cbs then .doUpdate bs mp "blackswan"
      else .doUpdate bs mp "marketpeak" := by
  by_cases h1 : bs = cbs <;> by_cases h2 : mp = cmp <;>
    simp [ScoreService.cycleDecision, hf, hc1, hc2, h1, h2]

theorem AnalysisService.steady_noChange (net : Except String AnalysisResponse)
    (ipfs : Except String (String × String)) (oc : TxOutcome)
    (t : AnalysisService.State) (cbs cmp : ℤ) (b m : Analysis)
    (hc1 : t.lastKnownBlackSwanScore = some cbs)
    (hc2 : t.lastKnownMarketPeakScore = some cmp)
    (hf : AnalysisService.fetchAnalysisFromAPI net = .ok (b, m))
    (h1 : b.score.floor = cbs) (h2 : m.score.floor = cmp) :
    AnalysisService.checkAndUpdateScores net ipfs oc t
      = ({ t with serviceStatus := recordAttempt t.serviceStatus }, []) := by
  simp [AnalysisService.checkAndUpdateScores, hf, hc1, hc2, h1, h2]

theorem AnalysisService.steady_update (net : Except String AnalysisResponse)
    (r1 r2 : String) (oc : TxOutcome)
    (t : AnalysisService.State) (cbs cmp : ℤ) (b m : Analysis)
    (hc1 : t.lastKnownBlackSwanScore = some cbs)
    (hc2 : t.lastKnownMarketPeakScore = some cmp)
    (hf : AnalysisService.fetchAnalysisFromAPI net = .ok (b, m))
    (hchg : ¬(b.score.floor = cbs ∧ m.score.floor = cmp)) :
    AnalysisService.checkAndUpdateScores net (.ok (r1, r2)) oc t
      = (if txSucceeded oc then
          ({ t with
              lastKnownBlackSwanScore := some b.score.floor
              lastKnownMarketPeakScore := some m.score.floor
              lastKnownBlackSwanIPFS := some r1
              lastKnownMarketPeakIPFS := some r2
              serviceStatus := { recordAttempt t.serviceStatus with
                lastSuccessfulUpdateSet := true
                updateCount := t.serviceStatus.updateCount + 1
                isHealthy := true } },
           [.updateScoresAndAnalysis b.score.floor m.score.floor r1 r2])
        else
          ({ t with serviceStatus := { recordAttempt t.serviceStatus with
              errorCount := t.serviceStatus.errorCount + 1
              isHealthy := false } },
           [.updateScoresAndAnalysis b.score.floor m.score.floor r1 r2])) := by
  by_cases h1 : b.score.floor = cbs <;> by_cases h2 : m.score.floor = cmp
  · exact absurd ⟨h1, h2⟩ hchg
  all_goals
    simp [AnalysisService.checkAndUpdateScores, hf, hc1, hc2,
      updateOracleScoresAndAnalysis, recordAttempt, h1, h2]

theorem AnalysisService.firstRun_spec (net : Except String AnalysisResponse)
    (r1 r2 : String) (oc : TxOutcome) (t : AnalysisService.State) (b m : Analysis)
    (hf : AnalysisService.fetchAnalysisFromAPI net = .ok (b, m))
    (hempty : t.lastKnownBlackSwanScore = none ∨ t.lastKnownMarketPeakScore = none) :
    AnalysisService.checkAndUpdateScores net (.ok (r1, r2)) oc t
      = (if txSucceeded oc then
          ({ t with
              lastKnownBlackSwanScore := some b.score.floor
              lastKnownMarketPeakScore := some m.score.floor
              lastKnownBlackSwanIPFS := some r1
              lastKnownMarketPeakIPFS := some r2
              serviceStatus := { recordAttempt t.serviceStatus with
                lastSuccessfulUpdateSet := true
                updateCount := t.serviceStatus.updateCount + 1
                isHealthy := true } },
           [.updateScoresAndAnalysis b.score.floor m.score.floor r1 r2])
        else
          ({ t with serviceStatus := recordAttempt t.serviceStatus },
           [.updateScoresAndAnalysis b.score.floor m.score.floor r1 r2])) := by
  rcases hempty with h | h
  · simp [AnalysisService.checkAndUpdateScores, hf, h, updateOracleScoresAndAnalysis,
      recordAttempt]
  · rcases hbs : t.lastKnownBlackSwanScore with _ | cbs
    · simp [AnalysisService.checkAndUpdateScores, hf, hbs, updateOracleScoresAndAnalysis,
        recordAttempt]
    · simp [AnalysisService.checkAndUpdateScores, hf, hbs, h, updateOracleScoresAndAnalysis,
        recordAttempt]

theorem validateScore_bad {v : JsVal} (h : badScoreField (some v) = true) :
    validateScore v = none := by
  cases v with
  | num q =>
    simp only [badScoreField, decide_eq_true_eq] at h
    simp [validateScore, h]
  | nan => rfl
  | other => rfl

/-- Claim C9: for every `updateType` argument outside "both", "blackswan"
and "marketpeak", `updateOracleScores` submits no transaction to the
contract and returns `false`: the throw from the undefined `tx` object
is caught inside the function and never reaches the caller. -/
theorem updateOracleScores_unknownType (oc : TxOutcome) (bs mp : ℤ) (t : String)
    (h1 : t ≠ "both") (h2 : t ≠ "blackswan") (h3 : t ≠ "marketpeak") :
    updateOracleScores oc bs mp t = (false, []) := by
  simp [updateOracleScores, h1, h2, h3]

theorem updateOracleScores_unknownType_witness :
    updateOracleScores .confirmedSuccess 41 75 "scores" = (false, []) :=
  updateOracleScores_unknownType .confirmedSuccess 41 75 "scores"
    (by decide) (by decide) (by decide)

/-- Claim C10: `start()` sets `serviceStatus.status` to "running" and
`isHealthy` to `true` before the initial `checkAndUpdateScores` call, so
`GET /health` answers HTTP 200 with `healthy: true` in the window after
startup and before any on-chain update has succeeded. -/
theorem start_running_healthy_before_first_cycle :
    (ScoreService.startPhase1 ScoreService.initialState).serviceStatus.status = "running"
    ∧ (ScoreService.startPhase1 ScoreService.initialState).serviceStatus.isHealthy = true
    ∧ healthEndpoint (ScoreService.startPhase1 ScoreService.initialState).serviceStatus
        = (200, true, "running")
    ∧ ∀ (net : Except String ApiResponse) (oc : TxOutcome),
        ScoreService.start net oc ScoreService.initialState
          = ScoreService.checkAndUpdateScores net oc
              (ScoreService.startPhase1 ScoreService.initialState) := by
  refine ⟨rfl, rfl, rfl, fun net oc => ?_⟩
  simp [ScoreService.start, ScoreService.initialState]

/-- Claim C6: any upstream response with a missing, non-numeric, `NaN` or
negative score field makes the fetch step fail before any chain
interaction: the cycle submits no oracle call, leaves both cached scores
untouched, increments `errorCount` by exactly one, records a `lastError`
and clears `isHealthy`. -/
theorem malformedFetch_abortsCycle (r : ApiResponse) (oc : TxOutcome)
    (s : ScoreService.State) (hbad : malformedResponse r = true) :
    (∃ msg, fetchScoresFromAPI (.ok r) = .error msg)
    ∧ (ScoreService.checkAndUpdateScores (.ok r) oc s).2 = []
    ∧ (ScoreService.checkAndUpdateScores (.ok r) oc s).1.lastKnownBlackSwanScore
        = s.lastKnownBlackSwanScore
    ∧ (ScoreService.checkAndUpdateScores (.ok r) oc s).1.lastKnownMarketPeakScore
        = s.lastKnownMarketPeakScore
    ∧ (ScoreService.checkAndUpdateScores (.ok r) oc s).1.serviceStatus.errorCount
        = s.serviceStatus.errorCount + 1
    ∧ (∃ msg, (ScoreService.checkAndUpdateScores (.ok r) oc s).1.serviceStatus.lastError
        = some msg)
    ∧ (ScoreService.checkAndUpdateScores (.ok r) oc s).1.serviceStatus.isHealthy = false := by
  have hfetch : ∃ msg, fetchScoresFromAPI (.ok r) = .error msg := by
    rcases r with ⟨bsf, mpf⟩
    rcases bsf with _ | v1
    · exact ⟨_, rfl⟩
    rcases mpf with _ | v2
    · exact ⟨_, rfl⟩
    simp only [malformedResponse, Bool.or_eq_true] at hbad
    rcases hbad with hb | hb
    · exact ⟨"Invalid blackswan score received",
        by simp [fetchScoresFromAPI, validateScore_bad hb]⟩
    · rcases hv1 : validateScore v1 with _ | b1
      · exact ⟨"Invalid blackswan score received", by simp [fetchScoresFromAPI, hv1]⟩
      · exact ⟨"Invalid market peak score received",
          by simp [fetchScoresFromAPI, hv1, validateScore_bad hb]⟩
  obtain ⟨msg, hmsg⟩ := hfetch
  rw [ScoreService.checkAndUpdateScores_eq,
    ScoreService.cycleDecision_fetchError (.ok r) s msg hmsg]
  exact ⟨⟨msg, hmsg⟩, rfl, rfl, rfl, rfl, ⟨msg, rfl⟩, rfl⟩

theorem malformedFetch_abortsCycle_witness :
    (∃ msg, fetchScoresFromAPI (.ok C6response) = .error msg)
    ∧ (ScoreService.checkAndUpdateScores (.ok C6response) .confirmedSuccess C6state).2 = []
    ∧ (ScoreService.checkAndUpdateScores (.ok C6response) .confirmedSuccess
        C6state).1.lastKnownBlackSwanScore = C6state.lastKnownBlackSwanScore
    ∧ (ScoreService.checkAndUpdateScores (.ok C6response) .confirmedSuccess
        C6state).1.lastKnownMarketPeakScore = C6state.lastKnownMarketPeakScore
    ∧ (ScoreService.checkAndUpdateScores (.ok C6response) .confirmedSuccess
        C6state).1.serviceStatus.errorCount = C6state.serviceStatus.errorCount + 1
    ∧ (∃ msg, (ScoreService.checkAndUpdateScores (.ok C6response) .confirmedSuccess
        C6state).1.serviceStatus.lastError = some msg)
    ∧ (ScoreService.checkAndUpdateScores (.ok C6response) .confirmedSuccess
        C6state).1.serviceStatus.isHealthy = false :=
  malformedFetch_abortsCycle C6response .confirmedSuccess C6state (by decide)

/-- Counterexample to **C1** as stated: in the analysis variant, with
cached scores (40, 60) and fetched scores (40, 75) exactly the market
peak score differs, yet the cycle submits the combined
`updateScoresAndAnalysis` call and not `updateMarketPeakScore`. -/
theorem analysisVariant_singleChange_combinedCall :
    (AnalysisService.checkAndUpdateScores
      (.ok { blackswan := some { score := 40 }, marketPeak := some { score := 75 } })
      (.ok ("ipfs://bsdoc", "ipfs://mpdoc"))
      .confirmedSuccess C1analysisState).2
      = [.updateScoresAndAnalysis 40 75 "ipfs://bsdoc" "ipfs://mpdoc"] := by decide

/-- Claim C1, amended: in the score-only variant, the steady-state update
action is exactly the claimed function of the changed-set: no call when
nothing differs, the matching single-field call when exactly one score
differs, the combined `updateBothScores` when both differ. In the
analysis variant, no call is made when nothing differs, and any change
(one score or both) submits exactly one combined
`updateScoresAndAnalysis` call, never a single-field update. -/
theorem updateCallSelection :
    (∀ (net : Except String ApiResponse) (oc : TxOutcome) (s : ScoreService.State)
        (cbs cmp bs mp : ℤ),
      s.lastKnownBlackSwanScore = some cbs →
      s.lastKnownMarketPeakScore = some cmp →
      fetchScoresFromAPI net = .ok (bs, mp) →
      ((bs = cbs ∧ mp = cmp → (ScoreService.checkAndUpdateScores net oc s).2 = []) ∧
       (bs ≠ cbs ∧ mp = cmp →
         (ScoreService.checkAndUpdateScores net oc s).2 = [.updateBlackSwanScore bs]) ∧
       (bs = cbs ∧ mp ≠ cmp →
         (ScoreService.checkAndUpdateScores net oc s).2 = [.updateMarketPeakScore mp]) ∧
       (bs ≠ cbs ∧ mp ≠ cmp →
         (ScoreService.checkAndUpdateScores net oc s).2 = [.updateBothScores bs mp])))
    ∧ (∀ (net : Except String AnalysisResponse) (r1 r2 : String) (oc : TxOutcome)
        (t : AnalysisService.State) (cbs cmp : ℤ) (b m : Analysis),
      t.lastKnownBlackSwanScore = some cbs →
      t.lastKnownMarketPeakScore = some cmp →
      AnalysisService.fetchAnalysisFromAPI net = .ok (b, m) →
      ((b.score.floor = cbs ∧ m.score.floor = cmp →
         (AnalysisService.checkAndUpdateScores net (.ok (r1, r2)) oc t).2 = []) ∧
       (¬(b.score.floor = cbs ∧ m.score.floor = cmp) →
         (AnalysisService.checkAndUpdateScores net (.ok (r1, r2)) oc t).2
           = [.updateScoresAndAnalysis b.score.floor m.score.floor r1 r2]))) := by
  constructor
  · intro net oc s cbs cmp bs mp hc1 hc2 hf
    rw [ScoreService.checkAndUpdateScores_eq,
      ScoreService.cycleDecision_steady net s cbs cmp bs mp hc1 hc2 hf]
    refine ⟨?_, ?_, ?_, ?_⟩
    · rintro ⟨h1, h2⟩
      simp [h1, h2, ScoreService.applyDecision]
    · rintro ⟨h1, h2⟩
      rcases oc <;>
        simp [h1, h2, ScoreService.applyDecision, updateOracleScores, txSucceeded]
    · rintro ⟨h1, h2⟩
      rcases oc <;>
        simp [h1, h2, ScoreService.applyDecision, updateOracleScores, txSucceeded]
    · rintro ⟨h1, h2⟩
      rcases oc <;>
        simp [h1, h2, ScoreService.applyDecision, updateOracleScores, txSucceeded]
  · intro net r1 r2 oc t cbs cmp b m hc1 hc2 hf
    constructor
    · rintro ⟨h1, h2⟩
      rw [AnalysisService.steady_noChange net (.ok (r1, r2)) oc t cbs cmp b m hc1 hc2 hf h1 h2]
    · intro hchg
      rw [AnalysisService.steady_update net r1 r2 oc t cbs cmp b m hc1 hc2 hf hchg]
      rcases oc <;> rfl

theorem updateCallSelection_witness :
    (ScoreService.checkAndUpdateScores
      (.ok { blackswanScore := some (.num 40), marketPeakScore := some (.num 75) })
      .confirmedSuccess C6state).2 = [.updateMarketPeakScore 75]
    ∧ (AnalysisService.checkAndUpdateScores
      (.ok { blackswan := some { score := 41 }, marketPeak := some { score := 75 } })
      (.ok ("ipfs://a", "ipfs://b"))
      .confirmedSuccess C1analysisState).2
      = [.updateScoresAndAnalysis 41 75 "ipfs://a" "ipfs://b"] := by
  constructor
  · exact (updateCallSelection.1
      (.ok { blackswanScore := some (.num 40), marketPeakScore := some (.num 75) })
      .confirmedSuccess C6state 40 60 40 75 rfl rfl rfl).2.2.1 ⟨rfl, by decide⟩
  · exact (updateCallSelection.2
      (.ok { blackswan := some { score := 41 }, marketPeak := some { score := 75 } })
      "ipfs://a" "ipfs://b" .confirmedSuccess C1analysisState 40 60
      { score := 41 } { score := 75 } rfl rfl rfl).2 (by decide)

theorem updateOracleScores_snd (oc oc2 : TxOutcome) (bs mp : ℤ) (t : String) :
    (updateOracleScores oc bs mp t).2 = (updateOracleScores oc2 bs mp t).2 := by
  by_cases h1 : t = "both" <;> by_cases h2 : t = "blackswan" <;>
    by_cases h3 : t = "marketpeak" <;> simp [updateOracleScores, h1, h2, h3]

theorem ScoreService.applyDecision_snd (d : ScoreService.Decision) (oc oc2 : TxOutcome)
    (s s2 : ScoreService.State) :
    (ScoreService.applyDecision d oc s).2 = (ScoreService.applyDecision d oc2 s2).2 := by
  rcases d with msg | ⟨bs, mp⟩ | _ | ⟨bs, mp, t⟩
  · rfl
  · rfl
  · rfl
  · simp only [ScoreService.applyDecision]
    cases hb : (updateOracleScores oc bs mp t).1 <;>
      cases hb2 : (updateOracleScores oc2 bs mp t).1 <;>
        simp [updateOracleScores_snd oc oc2 bs mp t]

theorem ScoreService.cycleDecision_cache_eq (net : Except String ApiResponse)
    (s s2 : ScoreService.State)
    (h1 : s2.lastKnownBlackSwanScore = s.lastKnownBlackSwanScore)
    (h2 : s2.lastKnownMarketPeakScore = s.lastKnownMarketPeakScore) :
    ScoreService.cycleDecision net s2 = ScoreService.cycleDecision net s := by
  rcases hf : fetchScoresFromAPI net with msg | ⟨bs, mp⟩ <;>
    simp [ScoreService.cycleDecision, hf, h1, h2]

theorem ScoreService.sameCache_sameCalls (net : Except String ApiResponse)
    (oc oc2 : TxOutcome) (s s2 : ScoreService.State)
    (h1 : s2.lastKnownBlackSwanScore = s.lastKnownBlackSwanScore)
    (h2 : s2.lastKnownMarketPeakScore = s.lastKnownMarketPeakScore) :
    (ScoreService.checkAndUpdateScores net oc2 s2).2
      = (ScoreService.checkAndUpdateScores net oc s).2 := by
  rw [ScoreService.checkAndUpdateScores_eq, ScoreService.checkAndUpdateScores_eq,
    ScoreService.cycleDecision_cache_eq net s s2 h1 h2]
  exact ScoreService.applyDecision_snd _ oc2 oc _ _

theorem ScoreService.steadyNoChangeEq (net : Except String ApiResponse) (oc : TxOutcome)
    (s : ScoreService.State) (cbs cmp bs mp : ℤ)
    (hc1 : s.lastKnownBlackSwanScore = some cbs)
    (hc2 : s.lastKnownMarketPeakScore = some cmp)
    (hf : fetchScoresFromAPI net = .ok (bs, mp))
    (h1 : bs = cbs) (h2 : mp = cmp) :
    ScoreService.checkAndUpdateScores net oc s
      = ({ s with serviceStatus := recordAttempt s.serviceStatus }, []) := by
  rw [ScoreService.checkAndUpdateScores_eq,
    ScoreService.cycleDecision_steady net s cbs cmp bs mp hc1 hc2 hf, if_pos ⟨h1, h2⟩]
  rfl

theorem ScoreService.steady_update_eq (net : Except String ApiResponse) (oc : TxOutcome)
    (s : ScoreService.State) (bs mp : ℤ) (ut : String) (c : OracleCall)
    (hd : ScoreService.cycleDecision net s = .doUpdate bs mp ut)
    (hc : updateOracleScores oc bs mp ut = (txSucceeded oc, [c])) :
    ScoreService.checkAndUpdateScores net oc s
      = (if txSucceeded oc then
          ({ s with
              lastKnownBlackSwanScore := some bs
              lastKnownMarketPeakScore := some mp
              serviceStatus := { recordAttempt s.serviceStatus with
                lastSuccessfulUpdateSet := true
                updateCount := s.serviceStatus.updateCount + 1
                isHealthy := true } }, [c])
        else
          ({ s with serviceStatus := { recordAttempt s.serviceStatus with
              errorCount := s.serviceStatus.errorCount + 1
              isHealthy := false } }, [c])) := by
  rw [ScoreService.checkAndUpdateScores_eq, hd]
  simp only [ScoreService.applyDecision, hc]
  cases hoc : txSucceeded oc <;> simp [hoc, recordAttempt]

theorem ScoreService.c2_aux (net : Except String ApiResponse) (oc : TxOutcome)
    (s : ScoreService.State) (cbs cmp bs mp : ℤ) (c : OracleCall)
    (hc1 : s.lastKnownBlackSwanScore = some cbs)
    (hc2 : s.lastKnownMarketPeakScore = some cmp)
    (hF : ScoreService.checkAndUpdateScores net oc s
      = (if txSucceeded oc then
          ({ s with
              lastKnownBlackSwanScore := some bs
              lastKnownMarketPeakScore := some mp
              serviceStatus := { recordAttempt s.serviceStatus with
                lastSuccessfulUpdateSet := true
                updateCount := s.serviceStatus.updateCount + 1
                isHealthy := true } }, [c])
        else
          ({ s with serviceStatus := { recordAttempt s.serviceStatus with
              errorCount := s.serviceStatus.errorCount + 1
              isHealthy := false } }, [c]))) :
    (oc ≠ .confirmedSuccess →
      (ScoreService.checkAndUpdateScores net oc s).1.lastKnownBlackSwanScore = some cbs
      ∧ (ScoreService.checkAndUpdateScores net oc s).1.lastKnownMarketPeakScore = some cmp
      ∧ ∀ oc2, (ScoreService.checkAndUpdateScores net oc2
          (ScoreService.checkAndUpdateScores net oc s).1).2
          = (ScoreService.checkAndUpdateScores net oc s).2)
    ∧ (oc = .confirmedSuccess → (ScoreService.checkAndUpdateScores net oc s).2 ≠ [] →
      (ScoreService.checkAndUpdateScores net oc s).1.lastKnownBlackSwanScore = some bs
      ∧ (ScoreService.checkAndUpdateScores net oc s).1.lastKnownMarketPeakScore = some mp)
    ∧ ((ScoreService.checkAndUpdateScores net oc s).2 = [] →
      (ScoreService.checkAndUpdateScores net oc s).1.lastKnownBlackSwanScore = some cbs
      ∧ (ScoreService.checkAndUpdateScores net oc s).1.lastKnownMarketPeakScore = some cmp) := by
  rcases oc with _ | _ | msg
  · simp only [txSucceeded, if_pos] at hF
    refine ⟨fun hne => absurd rfl hne, fun _ _ => ⟨by rw [hF], by rw [hF]⟩, fun hnil => ?_⟩
    rw [hF] at hnil
    exact absurd hnil (by simp)
  · simp only [txSucceeded, Bool.false_eq_true, if_neg, ite_false] at hF
    refine ⟨fun _ => ⟨?_, ?_, fun oc2 => ?_⟩, ?_, ?_⟩
    · rw [hF]; exact hc1
    · rw [hF]; exact hc2
    · exact ScoreService.sameCache_sameCalls net .confirmedFailure oc2 s _
        (by rw [hF]) (by rw [hF])
    · intro he
      simp at he
    · intro hnil
      rw [hF] at hnil
      exact absurd hnil (by simp)
  · simp only [txSucceeded, Bool.false_eq_true, if_neg, ite_false] at hF
    refine ⟨fun _ => ⟨?_, ?_, fun oc2 => ?_⟩, ?_, ?_⟩
    · rw [hF]; exact hc1
    · rw [hF]; exact hc2
    · exact ScoreService.sameCache_sameCalls net (.thrown msg) oc2 s _
        (by rw [hF]) (by rw [hF])
    · intro he
      simp at he
    · intro hnil
      rw [hF] at hnil
      exact absurd hnil (by simp)

/-- Counterexample to **C2** as stated: in the score-only variant the
first cycle mutates the cached scores although no transaction was
submitted at all (the cycle makes no `OracleClient` call, and the
environment outcome is not a confirmed success). -/
theorem scoreVariant_firstRun_mutatesCache_withoutTx :
    (ScoreService.checkAndUpdateScores
      (.ok { blackswanScore := some (.num 10), marketPeakScore := some (.num 20) })
      .confirmedFailure ScoreService.initialState).1.lastKnownBlackSwanScore = some 10
    ∧ (ScoreService.checkAndUpdateScores
      (.ok { blackswanScore := some (.num 10), marketPeakScore := some (.num 20) })
      .confirmedFailure ScoreService.initialState).1.lastKnownMarketPeakScore = some 20
    ∧ ScoreService.initialState.lastKnownBlackSwanScore = none
    ∧ (ScoreService.checkAndUpdateScores
      (.ok { blackswanScore := some (.num 10), marketPeakScore := some (.num 20) })
      .confirmedFailure ScoreService.initialState).2 = [] := by decide

/-- Claim C2, amended: for steady-state cycles (cache already seeded), in
both variants, the cached values (scores, and content refs in the
analysis variant) are mutated exactly when the transaction outcome is a
confirmed success: on any failure the cache is left as before and a
subsequent cycle with the same fetched values submits the same update
calls again; on success with a performed update the cache takes this
cycle's fetched values. (The score-only variant's first cycle, by
contrast, seeds the cache with no transaction at all.) -/
theorem steadyCacheCommit :
    (∀ (net : Except String ApiResponse) (oc : TxOutcome) (s : ScoreService.State)
        (cbs cmp bs mp : ℤ),
      s.lastKnownBlackSwanScore = some cbs →
      s.lastKnownMarketPeakScore = some cmp →
      fetchScoresFromAPI net = .ok (bs, mp) →
      ((oc ≠ .confirmedSuccess →
        (ScoreService.checkAndUpdateScores net oc s).1.lastKnownBlackSwanScore = some cbs
        ∧ (ScoreService.checkAndUpdateScores net oc s).1.lastKnownMarketPeakScore = some cmp
        ∧ ∀ oc2, (ScoreService.checkAndUpdateScores net oc2
            (ScoreService.checkAndUpdateScores net oc s).1).2
            = (ScoreService.checkAndUpdateScores net oc s).2)
      ∧ (oc = .confirmedSuccess → (ScoreService.checkAndUpdateScores net oc s).2 ≠ [] →
        (ScoreService.checkAndUpdateScores net oc s).1.lastKnownBlackSwanScore = some bs
        ∧ (ScoreService.checkAndUpdateScores net oc s).1.lastKnownMarketPeakScore = some mp)
      ∧ ((ScoreService.checkAndUpdateScores net oc s).2 = [] →
        (ScoreService.checkAndUpdateScores net oc s).1.lastKnownBlackSwanScore = some cbs
        ∧ (ScoreService.checkAndUpdateScores net oc s).1.lastKnownMarketPeakScore = some cmp)))
    ∧ (∀ (net : Except String AnalysisResponse) (r1 r2 : String) (oc : TxOutcome)
        (t : AnalysisService.State) (cbs cmp : ℤ) (b m : Analysis),
      t.lastKnownBlackSwanScore = some cbs →
      t.lastKnownMarketPeakScore = some cmp →
      AnalysisService.fetchAnalysisFromAPI net = .ok (b, m) →
      ((txSucceeded oc = false →
        (AnalysisService.checkAndUpdateScores net (.ok (r1, r2)) oc t).1.lastKnownBlackSwanScore
          = some cbs
        ∧ (AnalysisService.checkAndUpdateScores net (.ok (r1, r2)) oc t).1.lastKnownMarketPeakScore
          = some cmp
        ∧ (AnalysisService.checkAndUpdateScores net (.ok (r1, r2)) oc t).1.lastKnownBlackSwanIPFS
          = t.lastKnownBlackSwanIPFS
        ∧ (AnalysisService.checkAndUpdateScores net (.ok (r1, r2)) oc t).1.lastKnownMarketPeakIPFS
          = t.lastKnownMarketPeakIPFS
        ∧ ∀ oc2, (AnalysisService.checkAndUpdateScores net (.ok (r1, r2)) oc2
            (AnalysisService.checkAndUpdateScores net (.ok (r1, r2)) oc t).1).2
            = (AnalysisService.checkAndUpdateScores net (.ok (r1, r2)) oc t).2)
      ∧ (oc = .confirmedSuccess →
          (AnalysisService.checkAndUpdateScores net (.ok (r1, r2)) oc t).2 ≠ [] →
        (AnalysisService.checkAndUpdateScores net (.ok (r1, r2)) oc t).1.lastKnownBlackSwanScore
          = some b.score.floor
        ∧ (AnalysisService.checkAndUpdateScores net (.ok (r1, r2)) oc t).1.lastKnownMarketPeakScore
          = some m.score.floor
        ∧ (AnalysisService.checkAndUpdateScores net (.ok (r1, r2)) oc t).1.lastKnownBlackSwanIPFS
          = some r1
        ∧ (AnalysisService.checkAndUpdateScores net (.ok (r1, r2)) oc t).1.lastKnownMarketPeakIPFS
          = some r2)
      ∧ ((AnalysisService.checkAndUpdateScores net (.ok (r1, r2)) oc t).2 = [] →
        (AnalysisService.checkAndUpdateScores net (.ok (r1, r2)) oc t).1.lastKnownBlackSwanScore
          = some cbs
        ∧ (AnalysisService.checkAndUpdateScores net (.ok (r1, r2)) oc t).1.lastKnownMarketPeakScore
          = some cmp
        ∧ (AnalysisService.checkAndUpdateScores net (.ok (r1, r2)) oc t).1.lastKnownBlackSwanIPFS
          = t.lastKnownBlackSwanIPFS
        ∧ (AnalysisService.checkAndUpdateScores net (.ok (r1, r2)) oc t).1.lastKnownMarketPeakIPFS
          = t.lastKnownMarketPeakIPFS))) := by
  constructor
  · intro net oc s cbs cmp bs mp hc1 hc2 hf
    by_cases h1 : bs = cbs <;> by_cases h2 : mp = cmp
    · have hF := ScoreService.steadyNoChangeEq net oc s cbs cmp bs mp hc1 hc2 hf h1 h2
      refine ⟨fun _ => ⟨?_, ?_, fun oc2 => ?_⟩, ?_, fun _ => ⟨?_, ?_⟩⟩
      · rw [hF]; exact hc1
      · rw [hF]; exact hc2
      · exact ScoreService.sameCache_sameCalls net oc oc2 s _ (by rw [hF]) (by rw [hF])
      · intro _ hne
        exact absurd (show (ScoreService.checkAndUpdateScores net oc s).2 = [] by rw [hF]) hne
      · rw [hF]; exact hc1
      · rw [hF]; exact hc2
    · have hd : ScoreService.cycleDecision net s = .doUpdate bs mp "marketpeak" := by
        rw [ScoreService.cycleDecision_steady net s cbs cmp bs mp hc1 hc2 hf]
        simp [h1, h2]
      exact ScoreService.c2_aux net oc s cbs cmp bs mp (.updateMarketPeakScore mp) hc1 hc2
        (ScoreService.steady_update_eq net oc s bs mp "marketpeak" (.updateMarketPeakScore mp)
          hd (by simp [updateOracleScores]))
    · have hd : ScoreService.cycleDecision net s = .doUpdate bs mp "blackswan" := by
        rw [ScoreService.cycleDecision_steady net s cbs cmp bs mp hc1 hc2 hf]
        simp [h1, h2]
      exact ScoreService.c2_aux net oc s cbs cmp bs mp (.updateBlackSwanScore bs) hc1 hc2
        (ScoreService.steady_update_eq net oc s bs mp "blackswan" (.updateBlackSwanScore bs)
          hd (by simp [updateOracleScores]))
    · have hd : ScoreService.cycleDecision net s = .doUpdate bs mp "both" := by
        rw [ScoreService.cycleDecision_steady net s cbs cmp bs mp hc1 hc2 hf]
        simp [h1, h2]
      exact ScoreService.c2_aux net oc s cbs cmp bs mp (.updateBothScores bs mp) hc1 hc2
        (ScoreService.steady_update_eq net oc s bs mp "both" (.updateBothScores bs mp)
          hd (by simp [updateOracleScores]))
  · intro net r1 r2 oc t cbs cmp b m hc1 hc2 hf
    by_cases hch : b.score.floor = cbs ∧ m.score.floor = cmp
    · have hG := AnalysisService.steady_noChange net (.ok (r1, r2)) oc t cbs cmp b m
        hc1 hc2 hf hch.1 hch.2
      refine ⟨fun _ => ⟨?_, ?_, ?_, ?_, fun oc2 => ?_⟩, ?_, fun _ => ⟨?_, ?_, ?_, ?_⟩⟩
      · rw [hG]; exact hc1
      · rw [hG]; exact hc2
      · rw [hG]
      · rw [hG]
      · rw [hG]
        show (AnalysisService.checkAndUpdateScores net (.ok (r1, r2)) oc2
          { t with serviceStatus := recordAttempt t.serviceStatus }).2
          = ([] : List OracleCall)
        rw [AnalysisService.steady_noChange net (.ok (r1, r2)) oc2
          { t with serviceStatus := recordAttempt t.serviceStatus } cbs cmp b m
          hc1 hc2 hf hch.1 hch.2]
      · intro _ hne
        exact absurd (show (AnalysisService.checkAndUpdateScores net (.ok (r1, r2)) oc t).2 = []
          by rw [hG]) hne
      · rw [hG]; exact hc1
      · rw [hG]; exact hc2
      · rw [hG]
      · rw [hG]
    · have hG := AnalysisService.steady_update net r1 r2 oc t cbs cmp b m hc1 hc2 hf hch
      rcases oc with _ | _ | msg
      · simp only [txSucceeded, if_pos] at hG
        refine ⟨?_, fun _ _ => ⟨?_, ?_, ?_, ?_⟩, ?_⟩
        · intro hfalse
          simp [txSucceeded] at hfalse
        · rw [hG]
        · rw [hG]
        · rw [hG]
        · rw [hG]
        · intro hnil
          rw [hG] at hnil
          exact absurd hnil (by simp)
      · simp only [txSucceeded, Bool.false_eq_true, if_neg, ite_false] at hG
        refine ⟨fun _ => ⟨?_, ?_, ?_, ?_, fun oc2 => ?_⟩, ?_, ?_⟩
        · rw [hG]; exact hc1
        · rw [hG]; exact hc2
        · rw [hG]
        · rw [hG]
        · rw [hG]
          show (AnalysisService.checkAndUpdateScores net (.ok (r1, r2)) oc2
            { t with serviceStatus := { recordAttempt t.serviceStatus with
                errorCount := t.serviceStatus.errorCount + 1
                isHealthy := false } }).2
            = [OracleCall.updateScoresAndAnalysis b.score.floor m.score.floor r1 r2]
          rw [AnalysisService.steady_update net r1 r2 oc2
            { t with serviceStatus := { recordAttempt t.serviceStatus with
                errorCount := t.serviceStatus.errorCount + 1
                isHealthy := false } } cbs cmp b m hc1 hc2 hf hch]
          rcases oc2 <;> rfl
        · intro he
          simp at he
        · intro hnil
          rw [hG] at hnil
          exact absurd hnil (by simp)
      · simp only [txSucceeded, Bool.false_eq_true, if_neg, ite_false] at hG
        refine ⟨fun _ => ⟨?_, ?_, ?_, ?_, fun oc2 => ?_⟩, ?_, ?_⟩
        · rw [hG]; exact hc1
        · rw [hG]; exact hc2
        · rw [hG]
        · rw [hG]
        · rw [hG]
          show (AnalysisService.checkAndUpdateScores net (.ok (r1, r2)) oc2
            { t with serviceStatus := { recordAttempt t.serviceStatus with
                errorCount := t.serviceStatus.errorCount + 1
                isHealthy := false } }).2
            = [OracleCall.updateScoresAndAnalysis b.score.floor m.score.floor r1 r2]
          rw [AnalysisService.steady_update net r1 r2 oc2
            { t with serviceStatus := { recordAttempt t.serviceStatus with
                errorCount := t.serviceStatus.errorCount + 1
                isHealthy := false } } cbs cmp b m hc1 hc2 hf hch]
          rcases oc2 <;> rfl
        · intro he
          simp at he
        · intro hnil
          rw [hG] at hnil
          exact absurd hnil (by simp)

theorem steadyCacheCommit_witness :
    (ScoreService.checkAndUpdateScores C2net .confirmedFailure C6state).1.lastKnownBlackSwanScore
      = some 40
    ∧ (ScoreService.checkAndUpdateScores C2net .confirmedFailure
        C6state).1.lastKnownMarketPeakScore = some 60
    ∧ (ScoreService.checkAndUpdateScores C2net .confirmedSuccess
        (ScoreService.checkAndUpdateScores C2net .confirmedFailure C6state).1).2
      = (ScoreService.checkAndUpdateScores C2net .confirmedFailure C6state).2 := by
  have h := (steadyCacheCommit.1 C2net .confirmedFailure C6state 40 60 41 75
    rfl rfl rfl).1 (by decide)
  exact ⟨h.1, h.2.1, h.2.2 .confirmedSuccess⟩

/-- Counterexample to **C3** as stated: in the score-only variant the
first cycle after startup (cache unset) performs no on-chain write at
all — it submits no call and just seeds the cache from the fetched
values. -/
theorem scoreVariant_firstCycle_noWrite :
    ScoreService.initialState.lastKnownBlackSwanScore = none
    ∧ (ScoreService.checkAndUpdateScores
        (.ok { blackswanScore := some (.num 7), marketPeakScore := some (.num 9) })
        .confirmedSuccess ScoreService.initialState).2 = []
    ∧ (ScoreService.checkAndUpdateScores
        (.ok { blackswanScore := some (.num 7), marketPeakScore := some (.num 9) })
        .confirmedSuccess ScoreService.initialState).1.lastKnownBlackSwanScore = some 7 := by
  decide

/-- Claim C3, amended: first cycle with an unset cache, per variant: the
analysis variant always performs the combined on-chain write regardless
of the fetched values, seeds the whole cache from this cycle's values
only on confirmed success and leaves it untouched on failure; the
score-only variant performs no write at all and unconditionally seeds
the cached scores from the fetched values. Neither variant diffs
against the unset cache. -/
theorem firstCycleBehaviour :
    (∀ (net : Except String AnalysisResponse) (r1 r2 : String) (oc : TxOutcome)
        (t : AnalysisService.State) (b m : Analysis),
      AnalysisService.fetchAnalysisFromAPI net = .ok (b, m) →
      (t.lastKnownBlackSwanScore = none ∨ t.lastKnownMarketPeakScore = none) →
      ((AnalysisService.checkAndUpdateScores net (.ok (r1, r2)) oc t).2
          = [.updateScoresAndAnalysis b.score.floor m.score.floor r1 r2]
        ∧ (oc = .confirmedSuccess →
          (AnalysisService.checkAndUpdateScores net (.ok (r1, r2)) oc t).1.lastKnownBlackSwanScore
            = some b.score.floor
          ∧ (AnalysisService.checkAndUpdateScores net (.ok (r1, r2)) oc
              t).1.lastKnownMarketPeakScore = some m.score.floor
          ∧ (AnalysisService.checkAndUpdateScores net (.ok (r1, r2)) oc
              t).1.lastKnownBlackSwanIPFS = some r1
          ∧ (AnalysisService.checkAndUpdateScores net (.ok (r1, r2)) oc
              t).1.lastKnownMarketPeakIPFS = some r2)
        ∧ (txSucceeded oc = false →
          (AnalysisService.checkAndUpdateScores net (.ok (r1, r2)) oc
              t).1.lastKnownBlackSwanScore = t.lastKnownBlackSwanScore
          ∧ (AnalysisService.checkAndUpdateScores net (.ok (r1, r2)) oc
              t).1.lastKnownMarketPeakScore = t.lastKnownMarketPeakScore)))
    ∧ (∀ (net : Except String ApiResponse) (oc : TxOutcome) (s : ScoreService.State)
        (bs mp : ℤ),
      fetchScoresFromAPI net = .ok (bs, mp) →
      (s.lastKnownBlackSwanScore = none ∨ s.lastKnownMarketPeakScore = none) →
      ((ScoreService.checkAndUpdateScores net oc s).2 = []
        ∧ (ScoreService.checkAndUpdateScores net oc s).1.lastKnownBlackSwanScore = some bs
        ∧ (ScoreService.checkAndUpdateScores net oc s).1.lastKnownMarketPeakScore = some mp)) := by
  constructor
  · intro net r1 r2 oc t b m hf hempty
    have hG := AnalysisService.firstRun_spec net r1 r2 oc t b m hf hempty
    rcases oc with _ | _ | msg
    · simp only [txSucceeded, if_pos] at hG
      refine ⟨by rw [hG], fun _ => ⟨by rw [hG], by rw [hG], by rw [hG], by rw [hG]⟩, ?_⟩
      intro hfalse
      simp [txSucceeded] at hfalse
    · simp only [txSucceeded, Bool.false_eq_true, if_neg, ite_false] at hG
      refine ⟨by rw [hG], ?_, fun _ => ⟨by rw [hG], by rw [hG]⟩⟩
      intro he
      simp at he
    · simp only [txSucceeded, Bool.false_eq_true, if_neg, ite_false] at hG
      refine ⟨by rw [hG], ?_, fun _ => ⟨by rw [hG], by rw [hG]⟩⟩
      intro he
      simp at he
  · intro net oc s bs mp hf hempty
    rw [ScoreService.checkAndUpdateScores_eq,
      ScoreService.cycleDecision_firstRun net s bs mp hf hempty]
    exact ⟨rfl, rfl, rfl⟩

theorem firstCycleBehaviour_witness :
    (AnalysisService.checkAndUpdateScores C3anet (.ok ("ipfs://b1", "ipfs://m1"))
      .confirmedSuccess AnalysisService.initialState).2
      = [.updateScoresAndAnalysis 12 34 "ipfs://b1" "ipfs://m1"]
    ∧ (ScoreService.checkAndUpdateScores C3net .confirmedSuccess
        ScoreService.initialState).2 = [] := by
  constructor
  · exact (firstCycleBehaviour.1 C3anet "ipfs://b1" "ipfs://m1" .confirmedSuccess
      AnalysisService.initialState { score := 12 } { score := 34 } rfl (Or.inl rfl)).1
  · exact (firstCycleBehaviour.2 C3net .confirmedSuccess ScoreService.initialState 7 9
      rfl (Or.inl rfl)).1

theorem ScoreService.c5_aux (net : Except String ApiResponse) (oc : TxOutcome)
    (s : ScoreService.State) (cbs cmp bs mp : ℤ) (c : OracleCall)
    (hc1 : s.lastKnownBlackSwanScore = some cbs)
    (hc2 : s.lastKnownMarketPeakScore = some cmp)
    (hfail : txSucceeded oc = false)
    (hF : ScoreService.checkAndUpdateScores net oc s
      = (if txSucceeded oc then
          ({ s with
              lastKnownBlackSwanScore := some bs
              lastKnownMarketPeakScore := some mp
              serviceStatus := { recordAttempt s.serviceStatus with
                lastSuccessfulUpdateSet := true
                updateCount := s.serviceStatus.updateCount + 1
                isHealthy := true } }, [c])
        else
          ({ s with serviceStatus := { recordAttempt s.serviceStatus with
              errorCount := s.serviceStatus.errorCount + 1
              isHealthy := false } }, [c]))) :
    (ScoreService.checkAndUpdateScores net oc s).1.serviceStatus.errorCount
      = s.serviceStatus.errorCount + 1
    ∧ (ScoreService.checkAndUpdateScores net oc s).1.serviceStatus.isHealthy = false
    ∧ (ScoreService.checkAndUpdateScores net oc s).1.serviceStatus.lastError
      = s.serviceStatus.lastError
    ∧ (ScoreService.checkAndUpdateScores net oc s).1.lastKnownBlackSwanScore = some cbs
    ∧ (ScoreService.checkAndUpdateScores net oc s).1.lastKnownMarketPeakScore = some cmp
    ∧ (ScoreService.checkAndUpdateScores net oc s).2 ≠ [] := by
  rw [hfail] at hF
  simp only [Bool.false_eq_true, if_neg, ite_false] at hF
  refine ⟨by rw [hF], by rw [hF], by rw [hF]; rfl, ?_, ?_, ?_⟩
  · rw [hF]; exact hc1
  · rw [hF]; exact hc2
  · rw [hF]
    simp

/-- Counterexample to **C5** as stated: a steady-state cycle whose
transaction fails increments `errorCount` and clears `isHealthy`, but
does not set `lastError`: it remains `none`. -/
theorem txFailure_lastError_unset :
    (ScoreService.checkAndUpdateScores C2net .confirmedFailure
      C6state).1.serviceStatus.lastError = none
    ∧ (ScoreService.checkAndUpdateScores C2net .confirmedFailure C6state).2
      = [.updateBothScores 41 75]
    ∧ (ScoreService.checkAndUpdateScores C2net .confirmedFailure
        C6state).1.serviceStatus.errorCount = 1
    ∧ (ScoreService.checkAndUpdateScores C2net .confirmedFailure
        C6state).1.serviceStatus.isHealthy = false := by decide

/-- Claim C5, amended: on a transaction failure in a steady-state cycle
(either variant) the cycle increments `errorCount`, sets `isHealthy` to
`false`, and leaves the cached scores and `lastError` unchanged: no
error record is written for transaction failures. On a transaction
failure in the analysis variant's first cycle, no status field is
touched at all (`errorCount`, `isHealthy` and `lastError` all keep their
prior values) and the cache stays unset. -/
theorem txFailureStatusEffects :
    (∀ (net : Except String ApiResponse) (oc : TxOutcome) (s : ScoreService.State)
        (cbs cmp bs mp : ℤ),
      s.lastKnownBlackSwanScore = some cbs →
      s.lastKnownMarketPeakScore = some cmp →
      fetchScoresFromAPI net = .ok (bs, mp) →
      ¬(bs = cbs ∧ mp = cmp) →
      txSucceeded oc = false →
      ((ScoreService.checkAndUpdateScores net oc s).1.serviceStatus.errorCount
          = s.serviceStatus.errorCount + 1
        ∧ (ScoreService.checkAndUpdateScores net oc s).1.serviceStatus.isHealthy = false
        ∧ (ScoreService.checkAndUpdateScores net oc s).1.serviceStatus.lastError
          = s.serviceStatus.lastError
        ∧ (ScoreService.checkAndUpdateScores net oc s).1.lastKnownBlackSwanScore = some cbs
        ∧ (ScoreService.checkAndUpdateScores net oc s).1.lastKnownMarketPeakScore = some cmp
        ∧ (ScoreService.checkAndUpdateScores net oc s).2 ≠ []))
    ∧ (∀ (net : Except String AnalysisResponse) (r1 r2 : String) (oc : TxOutcome)
        (t : AnalysisService.State) (cbs cmp : ℤ) (b m : Analysis),
      t.lastKnownBlackSwanScore = some cbs →
      t.lastKnownMarketPeakScore = some cmp →
      AnalysisService.fetchAnalysisFromAPI net = .ok (b, m) →
      ¬(b.score.floor = cbs ∧ m.score.floor = cmp) →
      txSucceeded oc = false →
      ((AnalysisService.checkAndUpdateScores net (.ok (r1, r2)) oc
            t).1.serviceStatus.errorCount = t.serviceStatus.errorCount + 1
        ∧ (AnalysisService.checkAndUpdateScores net (.ok (r1, r2)) oc
            t).1.serviceStatus.isHealthy = false
        ∧ (AnalysisService.checkAndUpdateScores net (.ok (r1, r2)) oc
            t).1.serviceStatus.lastError = t.serviceStatus.lastError
        ∧ (AnalysisService.checkAndUpdateScores net (.ok (r1, r2)) oc
            t).1.lastKnownBlackSwanScore = some cbs
        ∧ (AnalysisService.checkAndUpdateScores net (.ok (r1, r2)) oc
            t).1.lastKnownMarketPeakScore = some cmp))
    ∧ (∀ (net : Except String AnalysisResponse) (r1 r2 : String) (oc : TxOutcome)
        (t : AnalysisService.State) (b m : Analysis),
      AnalysisService.fetchAnalysisFromAPI net = .ok (b, m) →
      (t.lastKnownBlackSwanScore = none ∨ t.lastKnownMarketPeakScore = none) →
      txSucceeded oc = false →
      ((AnalysisService.checkAndUpdateScores net (.ok (r1, r2)) oc
            t).1.serviceStatus.errorCount = t.serviceStatus.errorCount
        ∧ (AnalysisService.checkAndUpdateScores net (.ok (r1, r2)) oc
            t).1.serviceStatus.isHealthy = t.serviceStatus.isHealthy
        ∧ (AnalysisService.checkAndUpdateScores net (.ok (r1, r2)) oc
            t).1.serviceStatus.lastError = t.serviceStatus.lastError
        ∧ (AnalysisService.checkAndUpdateScores net (.ok (r1, r2)) oc
            t).1.lastKnownBlackSwanScore = t.lastKnownBlackSwanScore
        ∧ (AnalysisService.checkAndUpdateScores net (.ok (r1, r2)) oc t).2 ≠ [])) := by
  refine ⟨?_, ?_, ?_⟩
  · intro net oc s cbs cmp bs mp hc1 hc2 hf hch hfail
    by_cases h1 : bs = cbs <;> by_cases h2 : mp = cmp
    · exact absurd ⟨h1, h2⟩ hch
    · have hd : ScoreService.cycleDecision net s = .doUpdate bs mp "marketpeak" := by
        rw [ScoreService.cycleDecision_steady net s cbs cmp bs mp hc1 hc2 hf]
        simp [h1, h2]
      exact ScoreService.c5_aux net oc s cbs cmp bs mp (.updateMarketPeakScore mp) hc1 hc2 hfail
        (ScoreService.steady_update_eq net oc s bs mp "marketpeak" (.updateMarketPeakScore mp)
          hd (by simp [updateOracleScores]))
    · have hd : ScoreService.cycleDecision net s = .doUpdate bs mp "blackswan" := by
        rw [ScoreService.cycleDecision_steady net s cbs cmp bs mp hc1 hc2 hf]
        simp [h1, h2]
      exact ScoreService.c5_aux net oc s cbs cmp bs mp (.updateBlackSwanScore bs) hc1 hc2 hfail
        (ScoreService.steady_update_eq net oc s bs mp "blackswan" (.updateBlackSwanScore bs)
          hd (by simp [updateOracleScores]))
    · have hd : ScoreService.cycleDecision net s = .doUpdate bs mp "both" := by
        rw [ScoreService.cycleDecision_steady net s cbs cmp bs mp hc1 hc2 hf]
        simp [h1, h2]
      exact ScoreService.c5_aux net oc s cbs cmp bs mp (.updateBothScores bs mp) hc1 hc2 hfail
        (ScoreService.steady_update_eq net oc s bs mp "both" (.updateBothScores bs mp)
          hd (by simp [updateOracleScores]))
  · intro net r1 r2 oc t cbs cmp b m hc1 hc2 hf hch hfail
    have hG := AnalysisService.steady_update net r1 r2 oc t cbs cmp b m hc1 hc2 hf hch
    rw [hfail] at hG
    simp only [Bool.false_eq_true, if_neg, ite_false] at hG
    refine ⟨by rw [hG], by rw [hG], by rw [hG]; rfl, ?_, ?_⟩
    · rw [hG]; exact hc1
    · rw [hG]; exact hc2
  · intro net r1 r2 oc t b m hf hempty hfail
    have hG := AnalysisService.firstRun_spec net r1 r2 oc t b m hf hempty
    rw [hfail] at hG
    simp only [Bool.false_eq_true, if_neg, ite_false] at hG
    refine ⟨by rw [hG]; rfl, by rw [hG]; rfl, by rw [hG]; rfl, by rw [hG], ?_⟩
    rw [hG]
    simp

theorem txFailureStatusEffects_witness :
    (ScoreService.checkAndUpdateScores C2net .confirmedFailure
        C6state).1.serviceStatus.errorCount = C6state.serviceStatus.errorCount + 1
    ∧ (ScoreService.checkAndUpdateScores C2net .confirmedFailure
        C6state).1.serviceStatus.lastError = C6state.serviceStatus.lastError
    ∧ (AnalysisService.checkAndUpdateScores C3anet (.ok ("ipfs://b1", "ipfs://m1"))
        .confirmedFailure AnalysisService.initialState).1.serviceStatus.errorCount
      = AnalysisService.initialState.serviceStatus.errorCount := by
  have h1 := txFailureStatusEffects.1 C2net .confirmedFailure C6state 40 60 41 75
    rfl rfl rfl (by decide) rfl
  have h3 := txFailureStatusEffects.2.2 C3anet "ipfs://b1" "ipfs://m1" .confirmedFailure
    AnalysisService.initialState { score := 12 } { score := 34 } rfl (Or.inl rfl) rfl
  exact ⟨h1.1, h1.2.2.1, h3.1⟩

/-- Counterexample to **C7** as stated: a manual update whose cycle
fails (here the upstream fetch throws) is still answered with HTTP 200
and `success: true`, while the cycle recorded the failure. -/
theorem postUpdate_failedCycle_returns200 :
    (ScoreService.postUpdate (.error "ECONNABORTED") .confirmedSuccess
      ScoreService.initialState).2.2 = { httpStatus := 200, success := true }
    ∧ (ScoreService.postUpdate (.error "ECONNABORTED") .confirmedSuccess
        ScoreService.initialState).1.serviceStatus.errorCount = 1
    ∧ (ScoreService.postUpdate (.error "ECONNABORTED") .confirmedSuccess
        ScoreService.initialState).1.serviceStatus.isHealthy = false := by decide

/-- Claim C7, amended: `POST /update` synchronously runs one cycle and
always responds HTTP 200 with `success: true`, whatever the cycle did:
`checkAndUpdateScores` catches every error internally and never rejects,
so the handler's `catch` / 500 branch is unreachable. In particular a
cycle whose fetch fails still yields a 200 `success: true` response
while `errorCount` is incremented and `isHealthy` cleared. -/
theorem postUpdate_always200 (net : Except String ApiResponse) (oc : TxOutcome)
    (s : ScoreService.State) :
    (ScoreService.postUpdate net oc s).2.2 = { httpStatus := 200, success := true }
    ∧ (ScoreService.postUpdate net oc s).1 = (ScoreService.checkAndUpdateScores net oc s).1
    ∧ (ScoreService.postUpdate net oc s).2.1 = (ScoreService.checkAndUpdateScores net oc s).2
    ∧ ∀ msg, fetchScoresFromAPI net = .error msg →
        (ScoreService.postUpdate net oc s).1.serviceStatus.errorCount
          = s.serviceStatus.errorCount + 1
        ∧ (ScoreService.postUpdate net oc s).1.serviceStatus.isHealthy = false := by
  refine ⟨rfl, rfl, rfl, fun msg hmsg => ?_⟩
  have hF : ScoreService.checkAndUpdateScores net oc s
      = ({ s with serviceStatus := cycleCatchBlock msg (recordAttempt s.serviceStatus) }, []) := by
    rw [ScoreService.checkAndUpdateScores_eq,
      ScoreService.cycleDecision_fetchError net s msg hmsg]
    rfl
  constructor
  · show (ScoreService.checkAndUpdateScores net oc s).1.serviceStatus.errorCount
      = s.serviceStatus.errorCount + 1
    rw [hF]
    rfl
  · show (ScoreService.checkAndUpdateScores net oc s).1.serviceStatus.isHealthy = false
    rw [hF]
    rfl

theorem postUpdate_always200_witness :
    (ScoreService.postUpdate (.error "ETIMEDOUT") .confirmedFailure
      C6state).2.2 = { httpStatus := 200, success := true }
    ∧ (ScoreService.postUpdate (.error "ETIMEDOUT") .confirmedFailure
        C6state).1.serviceStatus.errorCount = C6state.serviceStatus.errorCount + 1 := by
  have h := postUpdate_always200 (.error "ETIMEDOUT") .confirmedFailure C6state
  exact ⟨h.1, (h.2.2.2 "ETIMEDOUT" rfl).1⟩

/-- Counterexample to **C4** as stated: from a running, seeded service a
timer-driven cycle and a `POST /update` cycle interleave into a state
with two concurrent `OracleClient` submissions — nothing rejects the
second invocation, because the timer gate only checks `isRunning` (which
an in-flight cycle never clears) and the HTTP handler has no gate. -/
theorem twoConcurrentSubmissions_reachable :
    Relation.ReflTransGen (ConcStep C2net .confirmedSuccess .confirmedSuccess) C4start C4end
    ∧ C4end.timer.isSubmitted = true ∧ C4end.http.isSubmitted = true := by
  refine ⟨?_, rfl, rfl⟩
  apply Relation.ReflTransGen.head (ConcStep.timerEnter C4start rfl rfl)
  apply Relation.ReflTransGen.head
    (@ConcStep.timerSubmit C2net .confirmedSuccess .confirmedSuccess
      { svc := { C6state with
          isRunning := true
          serviceStatus := recordAttempt C6state.serviceStatus }
        timer := .entered, http := .idle } 41 75 "both" rfl rfl)
  apply Relation.ReflTransGen.head
    (ConcStep.httpEnter
      { svc := { C6state with
          isRunning := true
          serviceStatus := recordAttempt C6state.serviceStatus }
        timer := .submitted (.doUpdate 41 75 "both"), http := .idle } rfl)
  apply Relation.ReflTransGen.head
    (@ConcStep.httpSubmit C2net .confirmedSuccess .confirmedSuccess
      { svc := { C6state with
          isRunning := true
          serviceStatus := recordAttempt (recordAttempt C6state.serviceStatus) }
        timer := .submitted (.doUpdate 41 75 "both"), http := .entered } 41 75 "both" rfl rfl)
  exact Relation.ReflTransGen.refl

/-- Claim C4, amended: there is no re-entrancy guard. The cycle never
writes `isRunning`, the timer gate only reads `isRunning`, and the
`POST /update` path is unguarded, so whenever the service is running and
a cycle would perform an update, the interleaving of a timer invocation
and an HTTP invocation reaches a state with two concurrent
`OracleClient` submissions. -/
theorem noReentrancyGuard (net : Except String ApiResponse) (oT oH : TxOutcome)
    (s : ScoreService.State) (bs mp : ℤ) (ut : String)
    (hrun : s.isRunning = true)
    (hd : ScoreService.cycleDecision net s = .doUpdate bs mp ut) :
    ((ScoreService.checkAndUpdateScores net oT s).1.isRunning = s.isRunning)
    ∧ ∃ c : ConcState,
      Relation.ReflTransGen (ConcStep net oT oH)
        { svc := s, timer := .idle, http := .idle } c
      ∧ c.timer.isSubmitted = true ∧ c.http.isSubmitted = true := by
  constructor
  · rw [ScoreService.checkAndUpdateScores_eq]
    rcases ScoreService.cycleDecision net s with msg | ⟨b2, m2⟩ | _ | ⟨b2, m2, u2⟩
    · rfl
    · rfl
    · rfl
    · simp only [ScoreService.applyDecision]
      cases hb : (updateOracleScores oT b2 m2 u2).1 <;> simp [hb]
  · refine ⟨{ svc := { s with serviceStatus := recordAttempt (recordAttempt s.serviceStatus) }
              timer := .submitted (.doUpdate bs mp ut)
              http := .submitted (.doUpdate bs mp ut) }, ?_, rfl, rfl⟩
    apply Relation.ReflTransGen.head
      (ConcStep.timerEnter { svc := s, timer := .idle, http := .idle } rfl hrun)
    apply Relation.ReflTransGen.head
      (ConcStep.timerSubmit
        { svc := { s with serviceStatus := recordAttempt s.serviceStatus }
          timer := .entered, http := .idle } bs mp ut rfl hd)
    apply Relation.ReflTransGen.head
      (ConcStep.httpEnter
        { svc := { s with serviceStatus := recordAttempt s.serviceStatus }
          timer := .submitted (.doUpdate bs mp ut), http := .idle } rfl)
    apply Relation.ReflTransGen.head
      (ConcStep.httpSubmit
        { svc := { s with serviceStatus := recordAttempt (recordAttempt s.serviceStatus) }
          timer := .submitted (.doUpdate bs mp ut), http := .entered } bs mp ut rfl hd)
    exact Relation.ReflTransGen.refl

theorem noReentrancyGuard_witness :
    ((ScoreService.checkAndUpdateScores C2net .confirmedFailure
        { C6state with isRunning := true }).1.isRunning
      = ({ C6state with isRunning := true } : ScoreService.State).isRunning)
    ∧ ∃ c : ConcState,
      Relation.ReflTransGen (ConcStep C2net .confirmedFailure .confirmedFailure)
        { svc := { C6state with isRunning := true }, timer := .idle, http := .idle } c
      ∧ c.timer.isSubmitted = true ∧ c.http.isSubmitted = true :=
  noReentrancyGuard C2net .confirmedFailure .confirmedFailure
    { C6state with isRunning := true } 41 75 "both" rfl rfl

/-- Claim C8: `addDevWallet` and `removeDevWallet` keep the membership
mapping and the enumeration list in sync. Under the invariant, a
successful `addDevWallet` preserves it; a successful `removeDevWallet`
leaves the removed wallet absent from both the mapping and the list
(the last element having been swapped into the removed slot before the
`pop`), keeps every other member, and preserves the invariant that an
address maps to `true` exactly when it occurs in the list. -/
theorem devWalletListSync (sender w : Addr) (s u : BlackSwanOracle.State)
    (hinv : DevWalletsInv s) :
    (BlackSwanOracle.addDevWallet sender w s = .ok u → DevWalletsInv u)
    ∧ (BlackSwanOracle.removeDevWallet sender w s = .ok u →
      DevWalletsInv u ∧ u.devWallets w = false ∧ w ∉ u.devWalletList
      ∧ ∀ a, a ≠ w → (a ∈ u.devWalletList ↔ a ∈ s.devWalletList)) := by
  obtain ⟨hiff, hnd⟩ := hinv
  constructor
  · intro hok
    rw [BlackSwanOracle.addDevWallet] at hok
    split at hok
    · exact absurd hok (by simp)
    split at hok
    · exact absurd hok (by simp)
    split at hok
    · exact absurd hok (by simp)
    rename_i hsender hzero hmem
    injection hok with h
    subst h
    have hwnot : w ∉ s.devWalletList := fun hc => hmem ((hiff w).2 hc)
    constructor
    · intro a
      by_cases haw : a = w
      · subst haw
        simp
      · simp [haw, hiff a]
    · refine List.nodup_append.2 ⟨hnd, List.nodup_singleton w, ?_⟩
      intro a ha hmem1
      obtain rfl := List.mem_singleton.1 hmem1
      exact hwnot ha
  · intro hok
    rw [BlackSwanOracle.removeDevWallet] at hok
    split at hok
    · exact absurd hok (by simp)
    split at hok
    · exact absurd hok (by simp)
    rename_i hsender hmem
    have hw : s.devWallets w = true := by
      rcases hb : s.devWallets w
      · exact absurd hb hmem
      · rfl
    have hwlist : w ∈ s.devWalletList := (hiff w).1 hw
    obtain ⟨hmemiff, hndnew⟩ := swapRemoveFirst_spec hnd hwlist
    injection hok with h
    subst h
    refine ⟨⟨?_, hndnew⟩, ?_, ?_, ?_⟩
    · intro a
      by_cases haw : a = w
      · subst haw
        simp [hmemiff]
      · simp [haw, hiff a, hmemiff a]
    · simp
    · intro hcon
      exact ((hmemiff w).1 hcon).2 rfl
    · intro a haw
      rw [hmemiff a]
      exact ⟨fun hx => hx.1, fun hx => ⟨hx, haw⟩⟩

theorem devWalletListSync_witness :
    BlackSwanOracle.removeDevWallet 1 3 C8state = .ok C8state2
    ∧ C8state2.devWallets 3 = false
    ∧ 3 ∉ C8state2.devWalletList
    ∧ C8state2.devWalletList.Nodup
    ∧ C8state2.devWalletList = [2, 4] := by
  have hinv : DevWalletsInv C8state := by
    constructor
    · intro a
      simp [C8state]
    · decide
  have h := (devWalletListSync 1 3 C8state C8state2 hinv).2 rfl
  exact ⟨rfl, h.2.1, h.2.2.1, h.1.2, by decide⟩
